import Mathlib

/-!
Verification of `SpaceContentGeneral/Misc/ScriptInit.py`, a debug-console
script bound to the game engine's ECS manager.  The script's functions are
shallowly embedded over an abstract engine state: entity and component ids
are `Nat`, the inventory container is a `List Nat` of item ids, and the
equipment's `AllSlots` enumeration is a `List Slot` in slot order.  The
engine primitives the script calls (`Inventory.Contains/Remove/Add`,
`ItemSlot.Validate`, component lookup) live outside the provided source and
are modelled from the spec as plain container/lookup operations.
-/

set_option autoImplicit false

namespace ScriptInit

/-- Modelled from the spec: an equipment slot component (`ItemSlot`).
`item` is the id of the contained item (`0` = empty, engine convention
`slot.Item > 0` means occupied); `validate` is the engine's slot validity
predicate `slot.Validate(item)`, abstract here, keyed by item id. -/
structure Slot where
  id : Nat
  item : Nat
  validate : Nat → Bool

/-- The part of the engine state the inventory/equipment commands touch:
`hasItem i` says whether entity `i` has an `Item` component
(`manager.GetComponent(itemId, Item.TypeId)` returns it, else null),
`inventory` is the player's inventory container, `slots` is
`equipment.AllSlots` in order. -/
structure EquipState where
  hasItem : Nat → Bool
  inventory : List Nat
  slots : List Slot

/-- The `for slot in equipment.AllSlots` loop body of `equip`: find the
first slot with `slot.Item == 0 and slot.Validate(item)`, store the item
id in it and report the updated slot list; `none` when no slot matched
(the loop falls through and `equip` returns silently). -/
def equipLoop (itemId : Nat) : List Slot → Option (List Slot)
  | [] => none
  | s :: rest =>
    if s.item == 0 && s.validate itemId then
      some ({ s with item := itemId } :: rest)
    else
      (equipLoop itemId rest).map (s :: ·)

/-- Function `equip(itemId)` from `ScriptInit.py`.  The returned pair is the engine
state after the call and the message of the `ValueError` raised, if any
(`none` = returned normally).  A raise happens before any mutation, so the
state component is the pre-state in the error cases. -/
def equip (itemId : Nat) (st : EquipState) : EquipState × Option String :=
  if st.hasItem itemId = false then
    (st, some "Invalid item.")
  else if st.inventory.contains itemId then
    match equipLoop itemId st.slots with
    | some slots' =>
      ({ st with slots := slots', inventory := st.inventory.erase itemId }, none)
    | none => (st, none)
  else
    (st, some "Item not in inventory.")

/-- Clearing the slot object returned by `manager.GetComponentById(slotId)`:
the first slot in the list carrying id `slotId` gets `Item = 0`. -/
def clearSlotById (slotId : Nat) : List Slot → List Slot
  | [] => []
  | s :: rest =>
    if s.id == slotId then { s with item := 0 } :: rest
    else s :: clearSlotById slotId rest

/-- Function `unequip(slotId)` from `ScriptInit.py`: look the slot component up by
id; if it holds an item (`slot.Item > 0`), clear it and add the item id to
the inventory.  `none` models the engine exception when no component with
that id exists (the Python would dereference null). -/
def unequip (slotId : Nat) (st : EquipState) : Option EquipState :=
  (st.slots.find? (fun s => s.id == slotId)).map (fun slot =>
    if slot.item > 0 then
      { st with
          slots := clearSlotById slotId st.slots,
          inventory := st.inventory ++ [slot.item] }
    else st)

/-! ### Helper lemmas about the equip loop -/

theorem slot_cond_false (itemId : Nat) (s : Slot)
    (hc : (s.item == 0 && s.validate itemId) = false) :
    ¬(s.item = 0 ∧ s.validate itemId = true) := by
  rintro ⟨h1, h2⟩
  simp [h1, h2] at hc

theorem equipLoop_eq_none_iff (itemId : Nat) (slots : List Slot) :
    equipLoop itemId slots = none ↔
      ∀ s ∈ slots, ¬(s.item = 0 ∧ s.validate itemId = true) := by
  induction slots with
  | nil => simp [equipLoop]
  | cons s rest ih =>
    cases hc : (s.item == 0 && s.validate itemId) with
    | true =>
      simp only [Bool.and_eq_true, beq_iff_eq] at hc
      simp [equipLoop, hc]
    | false =>
      simp only [equipLoop, hc, Bool.false_eq_true, if_false, Option.map_eq_none']
      constructor
      · intro h t ht
        rcases List.mem_cons.mp ht with rfl | ht
        · exact slot_cond_false itemId t hc
        · exact (ih.mp h) t ht
      · intro h
        exact ih.mpr (fun t ht => h t (List.mem_cons_of_mem _ ht))

theorem equipLoop_spec (itemId : Nat) (slots : List Slot)
    (hEmpty : ∃ s ∈ slots, s.item = 0 ∧ s.validate itemId = true) :
    ∃ i, ∃ hi : i < slots.length,
      (slots.get ⟨i, hi⟩).item = 0 ∧
      (slots.get ⟨i, hi⟩).validate itemId = true ∧
      (∀ j, ∀ hj : j < slots.length, j < i →
        ¬((slots.get ⟨j, hj⟩).item = 0 ∧ (slots.get ⟨j, hj⟩).validate itemId = true)) ∧
      equipLoop itemId slots =
        some (slots.set i { slots.get ⟨i, hi⟩ with item := itemId }) := by
  induction slots with
  | nil => simp at hEmpty
  | cons s rest ih =>
    cases hc : (s.item == 0 && s.validate itemId) with
    | true =>
      have hc' := hc
      simp only [Bool.and_eq_true, beq_iff_eq] at hc'
      refine ⟨0, Nat.succ_pos _, hc'.1, hc'.2,
        fun j hj hj0 => absurd hj0 (Nat.not_lt_zero j), ?_⟩
      simp [equipLoop, hc]
    | false =>
      have hs := slot_cond_false itemId s hc
      have hEmpty' : ∃ t ∈ rest, t.item = 0 ∧ t.validate itemId = true := by
        rcases hEmpty with ⟨t, ht, hp⟩
        rcases List.mem_cons.mp ht with rfl | ht
        · exact absurd hp hs
        · exact ⟨t, ht, hp⟩
      rcases ih hEmpty' with ⟨i, hi, h1, h2, h3, h4⟩
      refine ⟨i + 1, Nat.succ_lt_succ hi, h1, h2, ?_, ?_⟩
      · intro j hj hji
        cases j with
        | zero => exact hs
        | succ k => exact h3 k (Nat.lt_of_succ_lt_succ hj) (Nat.lt_of_succ_lt_succ hji)
      · show equipLoop itemId (s :: rest) =
          some (s :: rest.set i { rest.get ⟨i, hi⟩ with item := itemId })
        simp [equipLoop, hc, h4]

theorem countP_set_eq_one {α : Type} (p : α → Bool) (l : List α) (i : Nat)
    (hi : i < l.length) (x : α) (hx : p x = true)
    (hl : ∀ a ∈ l, p a = false) :
    (l.set i x).countP p = 1 := by
  induction l generalizing i with
  | nil => exact absurd hi (Nat.not_lt_zero i)
  | cons a tl ih =>
    cases i with
    | zero =>
      have h0 : tl.countP p = 0 :=
        List.countP_eq_zero.mpr (by
          intro b hb
          simp [hl b (List.mem_cons_of_mem _ hb)])
      show (x :: tl).countP p = 1
      simp [List.countP_cons, hx, h0]
    | succ k =>
      have hka : p a = false := hl a (List.mem_cons_self _ _)
      have hrec := ih k (Nat.lt_of_succ_lt_succ hi)
        (fun b hb => hl b (List.mem_cons_of_mem _ hb))
      show (a :: tl.set k x).countP p = 1
      simp [List.countP_cons, hka, hrec]

theorem find?_clearSlotById (slotId : Nat) (slots : List Slot) (slot : Slot)
    (h : slots.find? (fun s => s.id == slotId) = some slot) :
    (clearSlotById slotId slots).find? (fun s => s.id == slotId) =
      some { slot with item := 0 } := by
  induction slots with
  | nil => simp [List.find?] at h
  | cons s rest ih =>
    cases hc : (s.id == slotId) with
    | true =>
      have hfind : List.find? (fun t => t.id == slotId) (s :: rest) = some s := by
        simp [List.find?, hc]
      rw [hfind] at h
      have hsl : s = slot := by injection h
      rw [hsl] at hc
      have hcl : clearSlotById slotId (s :: rest) = { slot with item := 0 } :: rest := by
        simp [clearSlotById, hsl, hc]
      rw [hcl]
      simp [List.find?, hc]
    | false =>
      have hfind : List.find? (fun t => t.id == slotId) (s :: rest) =
          List.find? (fun t => t.id == slotId) rest := by
        simp [List.find?, hc]
      rw [hfind] at h
      have hcl : clearSlotById slotId (s :: rest) = s :: clearSlotById slotId rest := by
        simp [clearSlotById, hc]
      rw [hcl]
      have hstep : List.find? (fun t => t.id == slotId)
          (s :: clearSlotById slotId rest) =
          List.find? (fun t => t.id == slotId) (clearSlotById slotId rest) := by
        simp [List.find?, hc]
      rw [hstep]
      exact ih h

/-! ### Concrete states used by the witnesses -/

/-- A slot validity predicate accepting every item. -/
def acceptAll : Nat → Bool := fun _ => true

/-- A slot validity predicate rejecting every item. -/
def acceptNone : Nat → Bool := fun _ => false

/-- Concrete state: item `5` in inventory; slot `1` empty but rejecting,
slot `2` empty and accepting, slot `3` occupied by item `7`. -/
def demoState : EquipState :=
  { hasItem := fun i => i == 5 || i == 7
    inventory := [5]
    slots := [⟨1, 0, acceptNone⟩, ⟨2, 0, acceptAll⟩, ⟨3, 7, acceptAll⟩] }

/-- Concrete state: item `6` in inventory; no slot both empty and
validating (slot `1` empty but rejecting, slot `2` accepting but full). -/
def demoFullState : EquipState :=
  { hasItem := fun i => i == 6
    inventory := [6]
    slots := [⟨1, 0, acceptNone⟩, ⟨2, 9, acceptAll⟩] }

/-! ### Claim theorems: equip -/

/-- C1: if the item has an `Item` component, is contained in the inventory,
and some slot of `equipment.AllSlots` is empty (`slot.Item == 0`) and
validates the item, then `equip` removes the item from the inventory and
the item ends up in exactly one slot, namely the first empty validating
slot in `AllSlots` order, and no other slot is modified.  (The state is
assumed well formed: no duplicate inventory entries and the item not
already sitting in a slot.) -/
theorem equip_moves_item_to_first_empty_validating_slot
    (itemId : Nat) (st : EquipState)
    (hItem : st.hasItem itemId = true)
    (hInv : itemId ∈ st.inventory)
    (hNodup : st.inventory.Nodup)
    (hNotEquipped : ∀ s ∈ st.slots, s.item ≠ itemId)
    (hEmpty : ∃ s ∈ st.slots, s.item = 0 ∧ s.validate itemId = true) :
    ∃ i, ∃ hi : i < st.slots.length,
      (st.slots.get ⟨i, hi⟩).item = 0 ∧
      (st.slots.get ⟨i, hi⟩).validate itemId = true ∧
      (∀ j, ∀ hj : j < st.slots.length, j < i →
        ¬((st.slots.get ⟨j, hj⟩).item = 0 ∧
          (st.slots.get ⟨j, hj⟩).validate itemId = true)) ∧
      (equip itemId st).2 = none ∧
      (equip itemId st).1.hasItem = st.hasItem ∧
      (equip itemId st).1.inventory = st.inventory.erase itemId ∧
      itemId ∉ (equip itemId st).1.inventory ∧
      (equip itemId st).1.slots.get? i =
        some { st.slots.get ⟨i, hi⟩ with item := itemId } ∧
      (∀ j, j ≠ i → (equip itemId st).1.slots.get? j = st.slots.get? j) ∧
      (equip itemId st).1.slots.countP (fun s => s.item == itemId) = 1 := by
  rcases equipLoop_spec itemId st.slots hEmpty with ⟨i, hi, h1, h2, h3, h4⟩
  have hcont : st.inventory.contains itemId = true := List.elem_eq_true_of_mem hInv
  have heq : equip itemId st =
      ({ st with inventory := st.inventory.erase itemId,
                 slots := st.slots.set i { st.slots.get ⟨i, hi⟩ with item := itemId } },
       none) := by
    simp [equip, hItem, hcont, hInv, h4]
  refine ⟨i, hi, h1, h2, h3, ?_, ?_, ?_, ?_, ?_, ?_, ?_⟩
  · rw [heq]
  · rw [heq]
  · rw [heq]
  · rw [heq]
    exact hNodup.not_mem_erase
  · rw [heq]
    simp only [List.get?_eq_getElem?]
    exact List.getElem?_set_eq_of_lt _ hi
  · intro j hj
    rw [heq]
    simp only
    rw [List.get?_set_of_lt' _ st.slots hi, if_neg (fun h => hj h.symm)]
  · rw [heq]
    refine countP_set_eq_one _ st.slots i hi _ (by simp) ?_
    intro s hs
    simpa using hNotEquipped s hs

/-- Witness for C1 at `itemId = 5` in `demoState`. -/
theorem equip_moves_item_witness :
    ∃ i, ∃ hi : i < demoState.slots.length,
      (demoState.slots.get ⟨i, hi⟩).item = 0 ∧
      (demoState.slots.get ⟨i, hi⟩).validate 5 = true ∧
      (∀ j, ∀ hj : j < demoState.slots.length, j < i →
        ¬((demoState.slots.get ⟨j, hj⟩).item = 0 ∧
          (demoState.slots.get ⟨j, hj⟩).validate 5 = true)) ∧
      (equip 5 demoState).2 = none ∧
      (equip 5 demoState).1.hasItem = demoState.hasItem ∧
      (equip 5 demoState).1.inventory = demoState.inventory.erase 5 ∧
      5 ∉ (equip 5 demoState).1.inventory ∧
      (equip 5 demoState).1.slots.get? i =
        some { demoState.slots.get ⟨i, hi⟩ with item := 5 } ∧
      (∀ j, j ≠ i → (equip 5 demoState).1.slots.get? j = demoState.slots.get? j) ∧
      (equip 5 demoState).1.slots.countP (fun s => s.item == 5) = 1 :=
  equip_moves_item_to_first_empty_validating_slot 5 demoState rfl
    (by decide) (by decide) (by decide)
    ⟨⟨2, 0, acceptAll⟩, List.mem_cons_of_mem _ (List.mem_cons_self _ _), rfl, rfl⟩

/-- C3: `equip` raises exactly when the item reference is invalid (no
`Item` component) or the item is not contained in the inventory; the
message is descriptive of the case; in both error cases the state is
unchanged. -/
theorem equip_error_iff_invalid_or_absent (itemId : Nat) (st : EquipState) :
    ((equip itemId st).2.isSome = true ↔
      (st.hasItem itemId = false ∨ itemId ∉ st.inventory)) ∧
    (st.hasItem itemId = false → (equip itemId st).2 = some "Invalid item.") ∧
    (st.hasItem itemId = true → itemId ∉ st.inventory →
      (equip itemId st).2 = some "Item not in inventory.") ∧
    ((equip itemId st).2.isSome = true → (equip itemId st).1 = st) := by
  by_cases hI : st.hasItem itemId = false
  · simp [equip, hI]
  · have hI' : st.hasItem itemId = true := by
      cases h : st.hasItem itemId
      · exact absurd h hI
      · rfl
    by_cases hM : itemId ∈ st.inventory
    · have hcont := List.elem_eq_true_of_mem hM
      cases h4 : equipLoop itemId st.slots with
      | some slots' => simp [equip, hI', hcont, h4, hM]
      | none => simp [equip, hI', hcont, h4, hM]
    · have hcont : st.inventory.contains itemId = false := by
        cases h : st.inventory.contains itemId
        · rfl
        · exact absurd (by simpa using h) hM
      simp [equip, hI', hcont, hM]

/-- Witness for C3: the two error cases evaluated in `demoState`
(`99` has no Item component, `7` has one but is not in the inventory). -/
theorem equip_error_witness :
    (equip 99 demoState).2 = some "Invalid item." ∧
    (equip 7 demoState).2 = some "Item not in inventory." ∧
    (equip 99 demoState).1 = demoState ∧
    (equip 7 demoState).1 = demoState := by
  refine ⟨(equip_error_iff_invalid_or_absent 99 demoState).2.1 rfl,
    (equip_error_iff_invalid_or_absent 7 demoState).2.2.1 rfl (by decide), ?_, ?_⟩
  · refine (equip_error_iff_invalid_or_absent 99 demoState).2.2.2 ?_
    rw [(equip_error_iff_invalid_or_absent 99 demoState).2.1 rfl]
    rfl
  · refine (equip_error_iff_invalid_or_absent 7 demoState).2.2.2 ?_
    rw [(equip_error_iff_invalid_or_absent 7 demoState).2.2.1 rfl (by decide)]
    rfl

/-- C4: a valid item contained in the inventory but with no empty
validating slot: `equip` returns silently, leaving the whole state
(inventory and slots) unchanged and raising no error. -/
theorem equip_no_free_slot_is_silent_noop (itemId : Nat) (st : EquipState)
    (hItem : st.hasItem itemId = true)
    (hInv : itemId ∈ st.inventory)
    (hNoSlot : ∀ s ∈ st.slots, ¬(s.item = 0 ∧ s.validate itemId = true)) :
    equip itemId st = (st, none) := by
  have hcont : st.inventory.contains itemId = true := List.elem_eq_true_of_mem hInv
  have h4 : equipLoop itemId st.slots = none := (equipLoop_eq_none_iff itemId st.slots).mpr hNoSlot
  simp [equip, hItem, hcont, hInv, h4]

/-- Witness for C4 at `itemId = 6` in `demoFullState`. -/
theorem equip_no_free_slot_witness :
    equip 6 demoFullState = (demoFullState, none) :=
  equip_no_free_slot_is_silent_noop 6 demoFullState rfl (by decide) (by decide)

/-! ### Claim theorems: unequip -/

/-- C2: when the slot looked up by `slotId` holds an item
(`slot.Item > 0`), `unequip` clears the slot (its `Item` becomes `0`) and
adds the held item id back to the player's inventory. -/
theorem unequip_clears_slot_and_returns_item (slotId : Nat) (st : EquipState)
    (slot : Slot)
    (hFind : st.slots.find? (fun s => s.id == slotId) = some slot)
    (hHeld : slot.item > 0) :
    unequip slotId st = some
      { st with slots := clearSlotById slotId st.slots,
                inventory := st.inventory ++ [slot.item] } ∧
    (clearSlotById slotId st.slots).find? (fun s => s.id == slotId) =
      some { slot with item := 0 } ∧
    slot.item ∈ (st.inventory ++ [slot.item]) := by
  refine ⟨?_, find?_clearSlotById slotId st.slots slot hFind, by simp⟩
  simp [unequip, hFind, hHeld]

/-- Witness for C2: unequipping slot `3` of `demoState`, which holds
item `7`. -/
theorem unequip_clears_slot_witness :
    unequip 3 demoState = some
      { demoState with slots := clearSlotById 3 demoState.slots,
                       inventory := demoState.inventory ++ [7] } ∧
    (clearSlotById 3 demoState.slots).find? (fun s => s.id == 3) =
      some { id := 3, item := 0, validate := acceptAll } ∧
    (7 : Nat) ∈ (demoState.inventory ++ [7]) :=
  unequip_clears_slot_and_returns_item 3 demoState ⟨3, 7, acceptAll⟩ rfl (by decide)

/-- C9: when the slot looked up by `slotId` is empty (`slot.Item == 0`),
`unequip` is a no-op: no error, slot still empty, inventory unchanged. -/
theorem unequip_empty_slot_is_noop (slotId : Nat) (st : EquipState) (slot : Slot)
    (hFind : st.slots.find? (fun s => s.id == slotId) = some slot)
    (hEmptySlot : slot.item = 0) :
    unequip slotId st = some st := by
  simp [unequip, hFind, hEmptySlot]

/-- Witness for C9: unequipping the empty slot `1` of `demoState`. -/
theorem unequip_empty_slot_witness :
    unequip 1 demoState = some demoState :=
  unequip_empty_slot_is_noop 1 demoState ⟨1, 0, acceptNone⟩ rfl rfl

/-! ### setExecutingPlayer: the per-player context globals -/

/-- Modelled from the spec: the slice of the engine `manager` that
`setExecutingPlayer` queries — `AvatarSystem.GetAvatar(player)` and the
component lookups (`Attributes`, `Inventory`, root `ItemSlot`) on the
avatar entity.  Entities and component handles are abstract `Nat` ids. -/
structure ScriptManager where
  getAvatar : Int → Nat
  getAttributes : Nat → Nat
  getInventory : Nat → Nat
  getItemSlot : Nat → Nat

/-- The four context-sensitive globals of the script
(`avatar, attributes, inventory, equipment`), `none` = Python `None`. -/
structure ScriptContext where
  avatar : Option Nat
  attributes : Option Nat
  inventory : Option Nat
  equipment : Option Nat

/-- Function `setExecutingPlayer(player)` from `ScriptInit.py`: for `player >= 0`
bind the four globals from the manager, otherwise set them all to None. -/
def setExecutingPlayer (m : ScriptManager) (player : Int) : ScriptContext :=
  if player ≥ 0 then
    { avatar := some (m.getAvatar player)
      attributes := some (m.getAttributes (m.getAvatar player))
      inventory := some (m.getInventory (m.getAvatar player))
      equipment := some (m.getItemSlot (m.getAvatar player)) }
  else
    { avatar := none, attributes := none, inventory := none, equipment := none }

/-- C5: with `player >= 0`, `setExecutingPlayer` binds avatar, attributes,
inventory and equipment from the manager (attributes/inventory/equipment
are the avatar's components); with `player < 0` it sets all four globals
to None. -/
theorem setExecutingPlayer_binds_context (m : ScriptManager) (player : Int) :
    (player ≥ 0 →
      setExecutingPlayer m player =
        { avatar := some (m.getAvatar player)
          attributes := some (m.getAttributes (m.getAvatar player))
          inventory := some (m.getInventory (m.getAvatar player))
          equipment := some (m.getItemSlot (m.getAvatar player)) }) ∧
    (player < 0 →
      setExecutingPlayer m player =
        { avatar := none, attributes := none, inventory := none, equipment := none }) := by
  constructor
  · intro h
    simp [setExecutingPlayer, h]
  · intro h
    have h' : ¬ player ≥ 0 := not_le.mpr h
    simp [setExecutingPlayer, h']

/-- A concrete manager used by the witnesses: avatar of player `p` is
entity `p + 10`, components are numbered off the entity. -/
def demoManager : ScriptManager :=
  { getAvatar := fun p => p.toNat + 10
    getAttributes := fun a => a + 1
    getInventory := fun a => a + 2
    getItemSlot := fun a => a + 3 }

/-- Witness for C5 at `player = 2` and `player = -1` in `demoManager`. -/
theorem setExecutingPlayer_binds_context_witness :
    setExecutingPlayer demoManager 2 =
      { avatar := some (demoManager.getAvatar 2)
        attributes := some (demoManager.getAttributes (demoManager.getAvatar 2))
        inventory := some (demoManager.getInventory (demoManager.getAvatar 2))
        equipment := some (demoManager.getItemSlot (demoManager.getAvatar 2)) } ∧
    setExecutingPlayer demoManager (-1) =
      { avatar := none, attributes := none, inventory := none, equipment := none } :=
  ⟨(setExecutingPlayer_binds_context demoManager 2).1 (by decide),
   (setExecutingPlayer_binds_context demoManager (-1)).2 (by decide)⟩

/-! ### goto and desync: the spatial state -/

/-- Position `FarPosition(x, y)` of the engine's far-coordinate math, modelled with
rational coordinates. -/
structure FarPosition where
  x : ℚ
  y : ℚ
deriving DecidableEq

/-- Modelled from the spec: the avatar's transform component
(`ITransform`).  `position` is the field `goto` writes
(spec §9: `Translation` vs `Position` is cosmetic drift between engine
revisions, so `desync`'s read of `Translation` is the same field);
`rotation` stands for the transform's remaining fields. -/
structure TransformC where
  position : FarPosition
  rotation : ℚ
deriving DecidableEq

/-- The slice of engine state the spatial commands touch: the avatar
entity, every entity's transform component, and the inventory/equipment
state (carried along to state frame conditions). -/
structure SpatialWorld where
  avatar : Nat
  transforms : Nat → TransformC
  inventory : List Nat
  slots : List Slot

/-- Function `goto(x, y)` from `ScriptInit.py`: set the `Position` of the avatar's
transform component to `FarPosition(x, y)`. -/
def goto (x y : ℚ) (w : SpatialWorld) : SpatialWorld :=
  { w with transforms := fun e =>
      if e = w.avatar then { w.transforms e with position := ⟨x, y⟩ }
      else w.transforms e }

/-- Function `desync()` from `ScriptInit.py`, with the two `random.random()` draws
(system-local values in `[0, 1)`) made explicit parameters: read the
avatar transform's translation and `goto` to it offset by the draws. -/
def desync (r1 r2 : ℚ) (w : SpatialWorld) : SpatialWorld :=
  goto ((w.transforms w.avatar).position.x + r1)
       ((w.transforms w.avatar).position.y + r2) w

/-- C6: `goto(x, y)` sets the avatar transform's `Position` to
`FarPosition(x, y)` and modifies nothing else: the transform's other
fields, every other entity's transform, and the inventory and equipment
state are unchanged. -/
theorem goto_sets_position_and_nothing_else (x y : ℚ) (w : SpatialWorld) :
    ((goto x y w).transforms w.avatar).position = ⟨x, y⟩ ∧
    ((goto x y w).transforms w.avatar).rotation = (w.transforms w.avatar).rotation ∧
    (∀ e, e ≠ w.avatar → (goto x y w).transforms e = w.transforms e) ∧
    (goto x y w).avatar = w.avatar ∧
    (goto x y w).inventory = w.inventory ∧
    (goto x y w).slots = w.slots := by
  refine ⟨by simp [goto], by simp [goto], ?_, rfl, rfl, rfl⟩
  intro e he
  simp [goto, he]

/-- A concrete spatial world for the witnesses. -/
def demoWorld : SpatialWorld :=
  { avatar := 1
    transforms := fun e => ⟨⟨e, 0⟩, 0⟩
    inventory := [5]
    slots := [⟨1, 0, acceptAll⟩] }

/-- Witness for C6: `goto 3 4` in `demoWorld`. -/
theorem goto_sets_position_witness :
    ((goto 3 4 demoWorld).transforms demoWorld.avatar).position = ⟨3, 4⟩ ∧
    ((goto 3 4 demoWorld).transforms demoWorld.avatar).rotation =
      (demoWorld.transforms demoWorld.avatar).rotation ∧
    (∀ e, e ≠ demoWorld.avatar →
      (goto 3 4 demoWorld).transforms e = demoWorld.transforms e) ∧
    (goto 3 4 demoWorld).avatar = demoWorld.avatar ∧
    (goto 3 4 demoWorld).inventory = demoWorld.inventory ∧
    (goto 3 4 demoWorld).slots = demoWorld.slots :=
  goto_sets_position_and_nothing_else 3 4 demoWorld

/-- C8: `desync` moves the avatar via `goto` to its current translation
offset by the system-local random draw on each axis, and it is
nondeterministic: there are draws in `[0, 1)` under which two runs from
the same state end at different avatar positions. -/
theorem desync_diverges (w : SpatialWorld) :
    (∀ r1 r2 : ℚ, desync r1 r2 w =
      goto ((w.transforms w.avatar).position.x + r1)
           ((w.transforms w.avatar).position.y + r2) w) ∧
    (∃ r1 r2 s1 s2 : ℚ,
      0 ≤ r1 ∧ r1 < 1 ∧ 0 ≤ r2 ∧ r2 < 1 ∧
      0 ≤ s1 ∧ s1 < 1 ∧ 0 ≤ s2 ∧ s2 < 1 ∧
      ((desync r1 r2 w).transforms w.avatar).position ≠
        ((desync s1 s2 w).transforms w.avatar).position) := by
  refine ⟨fun r1 r2 => rfl, 0, 0, 1/2, 0, le_refl 0, by norm_num, le_refl 0, by norm_num,
    by norm_num, by norm_num, le_refl 0, by norm_num, ?_⟩
  intro h
  simp [desync, goto, FarPosition.mk.injEq] at h

/-! ### setFactions: faction bitflags -/

/-- Modelled from the spec: the `Factions` bitflag enum value of the
first NPC faction (a distinct single bit). -/
def NpcFactionA : Nat := 2

/-- Modelled from the spec: the `Factions` bitflag enum value of the
second NPC faction (a distinct single bit). -/
def NpcFactionB : Nat := 4

/-- The avatar's `Faction` component. -/
structure FactionC where
  value : Nat
deriving DecidableEq

/-- Function `setFactions()` from `ScriptInit.py`:
`f.Value = f.Value | Factions.NpcFactionA | Factions.NpcFactionB`. -/
def setFactions (f : FactionC) : FactionC :=
  { f with value := f.value ||| NpcFactionA ||| NpcFactionB }

/-- C10: `setFactions` only adds faction bits: afterwards both NPC
faction bits are set, every bit set before is still set, and the
operation is idempotent. -/
theorem setFactions_adds_bits_monotone_idempotent (f : FactionC) :
    ((setFactions f).value &&& NpcFactionA = NpcFactionA) ∧
    ((setFactions f).value &&& NpcFactionB = NpcFactionB) ∧
    (∀ i, f.value.testBit i = true → (setFactions f).value.testBit i = true) ∧
    setFactions (setFactions f) = setFactions f := by
  refine ⟨?_, ?_, ?_, ?_⟩
  · apply Nat.eq_of_testBit_eq
    intro i
    simp only [setFactions, Nat.testBit_and, Nat.testBit_or]
    cases hA : NpcFactionA.testBit i <;> simp [hA]
  · apply Nat.eq_of_testBit_eq
    intro i
    simp only [setFactions, Nat.testBit_and, Nat.testBit_or]
    cases hB : NpcFactionB.testBit i <;> simp [hB]
  · intro i h
    simp [setFactions, Nat.testBit_or, h]
  · show FactionC.mk ((f.value ||| NpcFactionA ||| NpcFactionB) ||| NpcFactionA ||| NpcFactionB)
      = FactionC.mk (f.value ||| NpcFactionA ||| NpcFactionB)
    congr 1
    apply Nat.eq_of_testBit_eq
    intro i
    simp only [Nat.testBit_or]
    cases f.value.testBit i <;> cases NpcFactionA.testBit i <;>
      cases NpcFactionB.testBit i <;> rfl

/-- Witness for C10 from faction value `9`: apply the theorem's monotone
part at bit `0` and its idempotence at the same state. -/
theorem setFactions_witness :
    (setFactions ⟨9⟩).value.testBit 0 = true ∧
    setFactions (setFactions ⟨9⟩) = setFactions ⟨9⟩ :=
  ⟨(setFactions_adds_bits_monotone_idempotent ⟨9⟩).2.2.1 0 (by decide),
   (setFactions_adds_bits_monotone_idempotent ⟨9⟩).2.2.2⟩

/-! ### addAi: squads and the AI-ship factory -/

/-- The squad component: leader and member list (formation omitted; the
script's `addAi` never touches it). -/
structure SquadC where
  leader : Nat
  members : List Nat
deriving DecidableEq

/-- Modelled from the spec: the slice of engine state `addAi` touches —
per-entity squad component, transform position, faction value, and the
AI component's guard target (`none` = no guard order); `nextEntity` is
the manager's next free entity id, so every live entity id is below it. -/
structure AiWorld where
  squads : Nat → Option SquadC
  positions : Nat → FarPosition
  factions : Nat → Nat
  aiGuard : Nat → Option Nat
  nextEntity : Nat

/-- Modelled from the spec: `manager.AddComponent[Squad](e)` attaches a
fresh squad component to `e`: a one-member squad led by `e` itself. -/
def freshSquad (e : Nat) : SquadC :=
  { leader := e, members := [e] }

/-- Modelled from the spec: the `if not squad: squad = manager.AddComponent[Squad](squadMember)` step of `addAi`. -/
def ensureSquad (squadMember : Nat) (w : AiWorld) : AiWorld :=
  match w.squads squadMember with
  | some _ => w
  | none =>
    { w with squads := fun e =>
        if e = squadMember then some (freshSquad squadMember) else w.squads e }

/-- Modelled from the spec:
`EntityFactory.CreateAIShip(manager, "L1_AI_Ship", faction, position, None)`
creates exactly one new ship entity with the given faction at the given
position and returns its id. -/
def createAIShip (faction : Nat) (position : FarPosition) (w : AiWorld) :
    Nat × AiWorld :=
  (w.nextEntity,
   { w with
       nextEntity := w.nextEntity + 1
       positions := fun e => if e = w.nextEntity then position else w.positions e
       factions := fun e => if e = w.nextEntity then faction else w.factions e })

/-- Function `addAi(squadMember)` from `ScriptInit.py`: ensure the member has a
squad, create an AI ship at the member's position with the member's
faction, give the ship a squad component, add it to the member's squad
(`squad.AddMember(ship)` mutates the member's component), and have the
ship's AI guard the squad's leader. -/
def addAi (squadMember : Nat) (w : AiWorld) : AiWorld :=
  let w1 := ensureSquad squadMember w
  let position := w1.positions squadMember
  let faction := w1.factions squadMember
  let ship := (createAIShip faction position w1).1
  let w2 := (createAIShip faction position w1).2
  let w3 := { w2 with squads := fun e =>
      if e = ship then some (freshSquad ship) else w2.squads e }
  let addMember := fun sq : SquadC => { sq with members := sq.members ++ [ship] }
  let squads4 := fun e =>
    if e = squadMember then Option.map addMember (w3.squads squadMember)
    else w3.squads e
  let w4 := { w3 with squads := squads4 }
  let leader := ((w4.squads squadMember).map SquadC.leader).getD 0
  { w4 with aiGuard := fun e => if e = ship then some leader else w4.aiGuard e }

/-- C7: for a live entity `squadMember`, `addAi` ensures the member has a
squad component, creates exactly one new AI ship (`w.nextEntity`) at the
member's position with the member's faction, gives the ship a squad
component, adds the ship as a member of the member's squad, and sets the
ship's AI to guard that squad's leader. -/
theorem addAi_creates_guarding_squad_ship (squadMember : Nat) (w : AiWorld)
    (hAlloc : squadMember < w.nextEntity) :
    ∃ sq : SquadC,
      (addAi squadMember w).nextEntity = w.nextEntity + 1 ∧
      (addAi squadMember w).positions w.nextEntity = w.positions squadMember ∧
      (addAi squadMember w).factions w.nextEntity = w.factions squadMember ∧
      ((addAi squadMember w).squads w.nextEntity).isSome = true ∧
      (addAi squadMember w).squads squadMember = some sq ∧
      w.nextEntity ∈ sq.members ∧
      (addAi squadMember w).aiGuard w.nextEntity = some sq.leader := by
  have hne : w.nextEntity ≠ squadMember := (Nat.ne_of_lt hAlloc).symm
  have hne' : squadMember ≠ w.nextEntity := Nat.ne_of_lt hAlloc
  cases h : w.squads squadMember with
  | none =>
    refine ⟨{ leader := squadMember, members := [squadMember, w.nextEntity] }, ?_⟩
    simp [addAi, ensureSquad, createAIShip, freshSquad, h, hne, hne']
  | some sq0 =>
    refine ⟨{ sq0 with members := sq0.members ++ [w.nextEntity] }, ?_⟩
    simp [addAi, ensureSquad, createAIShip, freshSquad, h, hne, hne']

/-- A concrete world for the C7 witness: entity `0` with no squad. -/
def demoAiWorld : AiWorld :=
  { squads := fun _ => none
    positions := fun e => ⟨e, 0⟩
    factions := fun _ => 3
    aiGuard := fun _ => none
    nextEntity := 1 }

/-- Witness for C7: `addAi 0` in `demoAiWorld`. -/
theorem addAi_creates_guarding_squad_ship_witness :
    ∃ sq : SquadC,
      (addAi 0 demoAiWorld).nextEntity = demoAiWorld.nextEntity + 1 ∧
      (addAi 0 demoAiWorld).positions demoAiWorld.nextEntity =
        demoAiWorld.positions 0 ∧
      (addAi 0 demoAiWorld).factions demoAiWorld.nextEntity =
        demoAiWorld.factions 0 ∧
      ((addAi 0 demoAiWorld).squads demoAiWorld.nextEntity).isSome = true ∧
      (addAi 0 demoAiWorld).squads 0 = some sq ∧
      demoAiWorld.nextEntity ∈ sq.members ∧
      (addAi 0 demoAiWorld).aiGuard demoAiWorld.nextEntity = some sq.leader :=
  addAi_creates_guarding_squad_ship 0 demoAiWorld (by decide)

end ScriptInit
